import Mathlib

/-!
A shallow embedding of the boomerang remote-execution engine
(`boomerang.go`, `cmd/boomerang/setup.go`, and the machine/auth sources),
together with proofs of the specification claims about it.

External effects (TCP dialing, SSH sessions, the known-hosts file, key
parsing by the `x/crypto/ssh` library, wall-clock time) are supplied by an
explicit environment/oracle, so every definition is executable.  Durations
are modelled in nanoseconds, exactly as Go's `time.Duration`; the setup
code (`importFromViper`) rejects negative `connTimeout`/`retry`/`retryWait`,
so those are carried as `Nat`.
-/

namespace Boomerang

/-- One nanosecond-denominated second, Go's `time.Second`. -/
def second : Nat := 1000000000

/-- `SSHInfo` from the machine source: hostname, username, ssh_port and the
opaque extras mapping (`map[string]interface{}`, modelled as an optional
association list; `none` stands for a nil map). -/
structure SSHInfo where
  hostName : String
  username : String
  port : String
  extras : Option (List (String × String))
deriving DecidableEq

/-- `Stream` from the machine source: data captured from one ssh session run. -/
structure Stream where
  name : String
  stdout : String
  stderr : String
  exitCode : Int
  streamErrors : List String
deriving DecidableEq

/-- The `Machine` struct: connection status, run length (nanoseconds of wall
time, supplied by the environment), connection errors, per-command stream
data, and the embedded `SSHInfo`. -/
structure Machine where
  connection : Bool
  runLength : Nat
  connectionErrors : List String
  streamData : List Stream
  info : SSHInfo
deriving DecidableEq

/-- `NewMachine`: zero-valued `Machine` with empty error and stream slices;
a nil extras map is replaced by an empty one. -/
def newMachine (s : SSHInfo) : Machine :=
  { connection := false,
    runLength := 0,
    connectionErrors := [],
    streamData := [],
    info :=
      { s with extras := (match s.extras with | none => some [] | some e => some e) } }

/-- A `command` from `setup.go`: name, command text, and the `sudo` flag
(`sudo` itself is a reserved word here, hence `usesSudo`). -/
structure Command where
  name : String
  cmd : String
  usesSudo : Bool
deriving DecidableEq

/-- The run-relevant fields of `State` from `setup.go`.  The resolved
`ssh.AuthMethod` is an opaque credential never inspected by `Run`, so it is
not carried.  `connTimeout`, `retry` and `retryWait` are validated
non-negative by `importFromViper`, hence `Nat` (seconds for `connTimeout`
and `retryWait`, a count for `retry`). -/
structure State where
  hostKeyCheck : Bool
  connTimeout : Nat
  retry : Nat
  retryWait : Nat
  commands : List Command

/- ### strconv.Atoi -/

/-- Decimal digits to a number; `none` when the list is empty or any
character is not a digit (Go `strconv` syntax error). -/
def digitsToNat (l : List Char) : Option Nat :=
  if l.isEmpty then none
  else
    l.foldl
      (fun acc c =>
        match acc with
        | none => none
        | some n => if c.isDigit then some (n * 10 + (c.toNat - 48)) else none)
      (some 0)

/-- The sign-and-digits core of `strconv.Atoi`. -/
def atoiCore (s : String) : Option Int :=
  match s.toList with
  | '+' :: rest => (digitsToNat rest).map (fun n => (n : Int))
  | '-' :: rest => (digitsToNat rest).map (fun n => -(n : Int))
  | l => (digitsToNat l).map (fun n => (n : Int))

/-- `strconv.Atoi`: base-10 parse into the int64 range, with the error text
Go produces on syntax and range failures. -/
def atoi (s : String) : Except String Int :=
  match atoiCore s with
  | none => Except.error ("strconv.Atoi: parsing \"" ++ s ++ "\": invalid syntax")
  | some v =>
    if v < -(2 ^ 63) ∨ v > 2 ^ 63 - 1 then
      Except.error ("strconv.Atoi: parsing \"" ++ s ++ "\": value out of range")
    else Except.ok v

/- ### setSSHPort -/

/-- The two failure modes of `Machine.setSSHPort`: a wrapped `strconv.Atoi`
error, or an out-of-range port. -/
inductive PortErr where
  | atoiErr (msg : String)
  | range (port : String)
deriving DecidableEq

/-- Rendering of a `setSSHPort` error as produced by `errors.Wrap` /
`errors.Errorf` in the source. -/
def portErrMsg : PortErr → String
  | PortErr.atoiErr e => "converting port string to int failed: " ++ e
  | PortErr.range p => "invalid port: [" ++ p ++ "]"

/-- `Machine.setSSHPort`: an absent port defaults to `"22"`; otherwise the
port must `Atoi`-parse into `[1, 65535]` and is normalized via
`strconv.Itoa`.  On error the machine is left unchanged (the Go method
returns before mutating `m.Port`). -/
def setSSHPort (m : Machine) : Except PortErr Machine :=
  if m.info.port = "" then
    Except.ok { m with info := { m.info with port := "22" } }
  else
    match atoi m.info.port with
    | Except.error e => Except.error (PortErr.atoiErr e)
    | Except.ok i =>
      if i < 1 ∨ i > 65535 then Except.error (PortErr.range m.info.port)
      else Except.ok { m with info := { m.info with port := toString i } }

/- ### checkHostKey (host.go / pkg/auth/knownhosts.go) -/

/-- `strings.Split(line, " ")` at the character level. -/
def splitChars : List Char → List (List Char)
  | [] => [[]]
  | c :: rest =>
    let r := splitChars rest
    if c = ' ' then [] :: r
    else
      match r with
      | [] => [[c]]
      | f :: fs => (c :: f) :: fs

/-- The space-separated fields of a known-hosts line. -/
def fields (line : String) : List String :=
  (splitChars line.toList).map (fun cs => String.mk cs)

/-- `strings.Contains`: `sub` occurs contiguously inside `s`. -/
def containsStr (s sub : String) : Bool :=
  (List.range (s.toList.length + 1)).any
    (fun i => sub.toList.isPrefixOf (s.toList.drop i))

/-- The lookup target `checkHostKey` builds: the bare hostname when the port
is `"22"`, otherwise `"[host]:port"`. -/
def knownHostsTarget (host port : String) : String :=
  if port = "22" then host else "[" ++ host ++ "]:" ++ port

/-- A known-hosts line is considered for `hp` when it has exactly three
space-separated fields and its first field contains `hp` as a substring. -/
def lineMatches (hp : String) (line : String) : Bool :=
  (fields line).length == 3 && containsStr ((fields line).headD "") hp

/-- Failure modes of `checkHostKey`: the known-hosts file could not be
opened, `ssh.ParseAuthorizedKey` failed on the matched line, or no line
matched (`"no hostkey"`). -/
inductive KeyErr where
  | openErr (msg : String)
  | parseErr (keyField : String) (msg : String)
  | noHostKey (host port : String)
deriving DecidableEq

/-- Rendering of a `checkHostKey` error per the source's `errors.Wrapf`. -/
def keyErrMsg : KeyErr → String
  | KeyErr.openErr e => e
  | KeyErr.parseErr f e => "error parsing [\"" ++ f ++ "\"]: " ++ e
  | KeyErr.noHostKey host port => "[" ++ host ++ ":" ++ port ++ "]: no hostkey"

/-- What one command's ssh session does, as observed by `executeCommands`:
`NewSession` fails (with the error's type name and text); `session.Run`
returns an `*ssh.ExitError` carrying the remote exit status; it returns an
`*ssh.ExitMissingError`; it fails with some other error; or it succeeds.
The raw stdout/stderr the session writes are carried where applicable. -/
inductive SessionOutcome where
  | noSession (tyName msg : String)
  | exitError (stdout stderr : String) (status : Int) (msg : String)
  | exitMissing (stdout stderr msg : String)
  | runFailed (stdout stderr tyName msg : String)
  | success (stdout stderr : String)
deriving DecidableEq

/-- The environment: everything the engine observes from outside.
`knownHosts` is the line list of `$HOME/.ssh/known_hosts` (`Except` error =
`os.Open` failure), `parseKey` models `ssh.ParseAuthorizedKey` on a whole
line (an opaque key is its marshalled text), `dialResult`/`dialTime` give
the outcome and duration (ns) of the k-th `ssh.Dial` attempt (`none` =
success), `session` gives the outcome of the k-th command's session, and
`elapsed` is the wall time `Run` measures into `RunLength`. -/
structure Env where
  knownHosts : Except String (List String)
  parseKey : String → Except String String
  dialResult : Nat → Option String
  dialTime : Nat → Nat
  session : Nat → SessionOutcome
  elapsed : Nat

/-- `checkHostKey`: scan the known-hosts lines for the first one with three
fields whose first field contains the target; parse it, or report
`"no hostkey"` when nothing matches. -/
def checkHostKey (env : Env) (host port : String) : Except KeyErr String :=
  match env.knownHosts with
  | Except.error e => Except.error (KeyErr.openErr e)
  | Except.ok lines =>
    let hp := knownHostsTarget host port
    match lines.find? (fun l => lineMatches hp l) with
    | some line =>
      match env.parseKey line with
      | Except.ok k => Except.ok k
      | Except.error e => Except.error (KeyErr.parseErr ((fields line).getD 2 "") e)
    | none => Except.error (KeyErr.noHostKey host port)

/-- The host-key callback handed to `ssh.ClientConfig`: either
`ssh.FixedHostKey` pinning one key, or `ssh.InsecureIgnoreHostKey`. -/
inductive HostKeyCallback where
  | fixed (key : String)
  | insecure
deriving DecidableEq

/-- Which presented server keys a callback accepts, modelling the
`x/crypto/ssh` library: `FixedHostKey` accepts exactly the pinned key,
`InsecureIgnoreHostKey` accepts every key. -/
def HostKeyCallback.accepts : HostKeyCallback → String → Bool
  | HostKeyCallback.fixed k, presented => k == presented
  | HostKeyCallback.insecure, _ => true

/-- The `switch st.hostKeyCheck` block of `Machine.Run`: with checking on,
resolve a pinned key via `checkHostKey`; with checking off, use the
insecure accept-anything callback. -/
def resolveHostKeyCallback (st : State) (env : Env) (host port : String) :
    Except KeyErr HostKeyCallback :=
  if st.hostKeyCheck then
    match checkHostKey env host port with
    | Except.ok k => Except.ok (HostKeyCallback.fixed k)
    | Except.error e => Except.error e
  else Except.ok HostKeyCallback.insecure

/- ### Machine.Connect -/

/-- The errors `Machine.Connect` can return: the wrapped dial error of the
single zero-timeout attempt, the raw last dial error delivered on the error
channel, or the deadline-exceeded `errors.Errorf` (distinct from any dial
error). -/
inductive ConnError where
  | wrapDial (msg : String)
  | lastDial (msg : String)
  | deadline (retry wait : Nat)
deriving DecidableEq

/-- The dialing goroutine of `Machine.Connect`: attempt `k`, and on failure
with retries remaining sleep `wait` seconds and try again.  Returns the
number of attempts performed, the goroutine's total running time in
nanoseconds, and the final outcome (`none` = a dial succeeded). -/
def dialLoop (env : Env) (wait : Nat) : Nat → Nat → Nat × Nat × Option String
  | r, k =>
    match env.dialResult k, r with
    | none, _ => (k + 1, env.dialTime k, none)
    | some e, 0 => (k + 1, env.dialTime k, some e)
    | some _, r' + 1 =>
      let rest := dialLoop env wait r' (k + 1)
      (rest.1, env.dialTime k + wait * second + rest.2.1, rest.2.2)

/-- The result of `Machine.Connect` together with the number of `ssh.Dial`
attempts the dialing goroutine performs. -/
structure ConnectOut where
  result : Except ConnError Unit
  attempts : Nat

/-- `Machine.Connect` with `timeout = conf.Timeout` in nanoseconds.  A zero
timeout dials exactly once and wraps any error.  Otherwise the deadline is
`timeout + retry*wait seconds + retry*timeout`, the context expires one
second after the deadline, and the select returns the goroutine's outcome
when it finishes within the context window, else the deadline error.  (When
both become ready at the same instant Go picks randomly; the goroutine is
taken to win the tie.) -/
def connect (timeout retry wait : Nat) (env : Env) : ConnectOut :=
  if timeout = 0 then
    match env.dialResult 0 with
    | none => { result := Except.ok (), attempts := 1 }
    | some e => { result := Except.error (ConnError.wrapDial e), attempts := 1 }
  else
    let deadline := timeout + retry * wait * second + retry * timeout
    let out := dialLoop env wait retry 0
    if out.2.1 ≤ deadline + second then
      match out.2.2 with
      | none => { result := Except.ok (), attempts := out.1 }
      | some e => { result := Except.error (ConnError.lastDial e), attempts := out.1 }
    else { result := Except.error (ConnError.deadline retry wait), attempts := out.1 }

/-- Rendering of a `Connect` error as `Machine.Run` sees it.  (Go prints the
wait as a `time.Duration`; whole seconds render as `"<n>s"`.) -/
def connErrMsg : ConnError → String
  | ConnError.wrapDial e => "could not establish machine connection: " ++ e
  | ConnError.lastDial e => e
  | ConnError.deadline r w =>
    "Retried " ++ toString r ++ " time(s) with a " ++ toString w ++ "s wait. No more retries!"

/- ### executeCommands -/

/-- The body of the `executeCommands` loop for one command: the `Stream`
recorded for command `c` given its session outcome. -/
def execOne (s : SessionOutcome) (c : Command) : Stream :=
  match s with
  | SessionOutcome.noSession ty msg =>
    { name := c.name,
      stdout := "",
      stderr := "",
      exitCode := -1,
      streamErrors :=
        ["error type=(" ++ ty ++ "): Failed to create NewSession: " ++ msg ++ "\n"] }
  | SessionOutcome.exitError out err status msg =>
    { name := c.name,
      stdout := out.trim,
      stderr := err.trim,
      exitCode := status,
      streamErrors := ["Command completed unsuccessfully: [*ssh.ExitError]: " ++ msg] }
  | SessionOutcome.exitMissing out err msg =>
    { name := c.name,
      stdout := out.trim,
      stderr := err.trim,
      exitCode := -1,
      streamErrors := ["Exit code missing: " ++ msg] }
  | SessionOutcome.runFailed out err ty msg =>
    { name := c.name,
      stdout := out.trim,
      stderr := err.trim,
      exitCode := -1,
      streamErrors := ["Failed session Run: [" ++ ty ++ "]: " ++ msg] }
  | SessionOutcome.success out err =>
    { name := c.name,
      stdout := out.trim,
      stderr := err.trim,
      exitCode := 0,
      streamErrors := [] }

/-- `executeCommands`: run the commands strictly in order, command `i`
against the i-th session outcome, recording one `Stream` per command
whatever happens. -/
def executeCommands (env : Env) : Nat → List Command → List Stream
  | _, [] => []
  | i, c :: cs => execOne (env.session i) c :: executeCommands env (i + 1) cs

/- ### Machine.Run -/

/-- `Machine.Run`, additionally reporting how many `ssh.Dial` attempts were
made (0 on the loopback, port-validation and host-key failure paths, which
return before `Connect` is called).  Each return path mirrors one `return m`
in the source, with the error chain rendered by `fmt.Sprint(errors.Wrap ...)`. -/
def runA (st : State) (env : Env) (m : Machine) : Machine × Nat :=
  if m.info.hostName = "127.0.0.1" ∨ m.info.hostName = "localhost" then
    ({ m with
        connection := false,
        runLength := env.elapsed,
        connectionErrors :=
          ["[" ++ m.info.hostName ++ "] is not supported. Consider creating a feature proposal"] },
      0)
  else
    match setSSHPort m with
    | Except.error e =>
      ({ m with
          connection := false,
          runLength := env.elapsed,
          connectionErrors := ["failed port validation: " ++ portErrMsg e] },
        0)
    | Except.ok m1 =>
      match resolveHostKeyCallback st env m1.info.hostName m1.info.port with
      | Except.error e =>
        ({ m1 with
            connection := false,
            runLength := env.elapsed,
            connectionErrors := ["failed host key check: " ++ keyErrMsg e] },
          0)
      | Except.ok _cb =>
        let out := connect (st.connTimeout * second) st.retry st.retryWait env
        match out.result with
        | Except.error e =>
          ({ m1 with
              connection := false,
              runLength := env.elapsed,
              connectionErrors := ["failed client connection: " ++ connErrMsg e] },
            out.attempts)
        | Except.ok _ =>
          ({ m1 with
              connection := true,
              runLength := env.elapsed,
              streamData := executeCommands env 0 st.commands },
            out.attempts)

/-- `Machine.Run`: the machine `runA` returns. -/
def run (st : State) (env : Env) (m : Machine) : Machine :=
  (runA st env m).1

/- ### The fleet orchestrator (main) -/

/-- The work of one per-host goroutine in `main`: `NewMachine` then `Run`,
under that host's environment. -/
def hostResult (st : State) (envs : SSHInfo → Env) (s : SSHInfo) : Machine :=
  run st (envs s) (newMachine s)

/-- The orchestrator's aggregation: `MachineData` starts empty and each
goroutine appends exactly one finished machine under the mutex; the list is
built in completion order, an arbitrary permutation of the inventory.
`wg.Wait` guarantees all appends happen before the report is read. -/
def fleetMachineData (st : State) (envs : SSHInfo → Env)
    (completionOrder : List SSHInfo) : List Machine :=
  completionOrder.foldl (fun acc s => acc ++ [hostResult st envs s]) []

/- ### Concrete test fixtures (used by the closed witness theorems) -/

/-- An environment in which every dial attempt fails instantly, the
known-hosts file is empty and every session would succeed. -/
def envAllFail : Env :=
  { knownHosts := Except.ok [],
    parseKey := fun _ => Except.error "no parse",
    dialResult := fun _ => some "connection refused",
    dialTime := fun _ => 0,
    session := fun _ => SessionOutcome.success "" "",
    elapsed := 0 }

/-- An environment in which the first dial succeeds instantly and every
session succeeds with empty output. -/
def envAllOk : Env :=
  { knownHosts := Except.ok [],
    parseKey := fun _ => Except.error "no parse",
    dialResult := fun _ => none,
    dialTime := fun _ => 0,
    session := fun _ => SessionOutcome.success "" "",
    elapsed := 0 }

/-- A state with host-key checking off, zero timeout and no commands. -/
def stPlain : State :=
  { hostKeyCheck := false, connTimeout := 0, retry := 0, retryWait := 0, commands := [] }

/-- A state with host-key checking on, zero timeout and no commands. -/
def stCheck : State :=
  { hostKeyCheck := true, connTimeout := 0, retry := 0, retryWait := 0, commands := [] }

/-- An environment whose single dial attempt fails and takes two seconds. -/
def envSlowDial : Env :=
  { knownHosts := Except.ok [],
    parseKey := fun _ => Except.error "no parse",
    dialResult := fun _ => some "connection refused",
    dialTime := fun _ => 2 * second,
    session := fun _ => SessionOutcome.success "" "",
    elapsed := 0 }

/-- An environment whose known-hosts file holds one trusted entry for
`otherhost.example.com`, whose line parses to the key `OTHERHOSTKEY`. -/
def envKnownHosts : Env :=
  { knownHosts := Except.ok ["otherhost.example.com ssh-ed25519 KEYBLOB"],
    parseKey := fun l =>
      if l = "otherhost.example.com ssh-ed25519 KEYBLOB" then Except.ok "OTHERHOSTKEY"
      else Except.error "not an authorized key",
    dialResult := fun _ => some "connection refused",
    dialTime := fun _ => 0,
    session := fun _ => SessionOutcome.success "" "",
    elapsed := 0 }

end Boomerang

namespace Boomerang

/- ### Basic lemmas about the embedded operations -/

theorem newMachine_streamData (s : SSHInfo) : (newMachine s).streamData = [] := rfl

theorem newMachine_connectionErrors (s : SSHInfo) : (newMachine s).connectionErrors = [] := rfl

theorem newMachine_hostName (s : SSHInfo) : (newMachine s).info.hostName = s.hostName := rfl

theorem newMachine_port (s : SSHInfo) : (newMachine s).info.port = s.port := rfl

/-- `setSSHPort` only ever touches the port: every other field survives. -/
theorem setSSHPort_ok_fields (m m' : Machine) (h : setSSHPort m = Except.ok m') :
    m'.connection = m.connection ∧ m'.runLength = m.runLength ∧
    m'.connectionErrors = m.connectionErrors ∧ m'.streamData = m.streamData ∧
    m'.info.hostName = m.info.hostName := by
  unfold setSSHPort at h
  split at h
  · injection h with h
    subst h
    exact ⟨rfl, rfl, rfl, rfl, rfl⟩
  · split at h
    · exact Except.noConfusion h
    · split at h
      · exact Except.noConfusion h
      · injection h with h
        subst h
        exact ⟨rfl, rfl, rfl, rfl, rfl⟩

/-- On success the port either was empty and became `"22"`, or is the
decimal rendering of the parsed in-range value. -/
theorem setSSHPort_ok_port (m m' : Machine) (h : setSSHPort m = Except.ok m') :
    (m.info.port = "" ∧ m'.info.port = "22") ∨
    (∃ i : Int, 1 ≤ i ∧ i ≤ 65535 ∧ m'.info.port = toString i) := by
  unfold setSSHPort at h
  split at h
  · injection h with h
    subst h
    exact Or.inl ⟨by assumption, rfl⟩
  · split at h
    · exact Except.noConfusion h
    · rename_i i _
      split at h
      · exact Except.noConfusion h
      · injection h with h
        subst h
        rename_i hrange
        rw [not_or] at hrange
        exact Or.inr ⟨i, by omega, by omega, rfl⟩

/-- Every recorded `Stream` keeps its command's name. -/
theorem execOne_name (s : SessionOutcome) (c : Command) : (execOne s c).name = c.name := by
  cases s <;> rfl

/-- `executeCommands` records exactly one `Stream` per command. -/
theorem executeCommands_length (env : Env) (i : Nat) (cs : List Command) :
    (executeCommands env i cs).length = cs.length := by
  induction cs generalizing i with
  | nil => rfl
  | cons c cs ih => simp [executeCommands, ih]

/-- The recorded streams carry the command names in input order. -/
theorem executeCommands_names (env : Env) (i : Nat) (cs : List Command) :
    (executeCommands env i cs).map Stream.name = cs.map Command.name := by
  induction cs generalizing i with
  | nil => rfl
  | cons c cs ih => simp [executeCommands, execOne_name, ih]

/- ### Path characterizations of Machine.Run -/

theorem runA_loopback (st : State) (env : Env) (m : Machine)
    (h : m.info.hostName = "127.0.0.1" ∨ m.info.hostName = "localhost") :
    runA st env m =
      ({ m with
          connection := false,
          runLength := env.elapsed,
          connectionErrors :=
            ["[" ++ m.info.hostName ++ "] is not supported. Consider creating a feature proposal"] },
        0) := by
  unfold runA
  rw [if_pos h]

theorem runA_portErr (st : State) (env : Env) (m : Machine) (e : PortErr)
    (h1 : ¬(m.info.hostName = "127.0.0.1" ∨ m.info.hostName = "localhost"))
    (h2 : setSSHPort m = Except.error e) :
    runA st env m =
      ({ m with
          connection := false,
          runLength := env.elapsed,
          connectionErrors := ["failed port validation: " ++ portErrMsg e] },
        0) := by
  simp only [runA, if_neg h1, h2]

theorem runA_keyErr (st : State) (env : Env) (m m1 : Machine) (e : KeyErr)
    (h1 : ¬(m.info.hostName = "127.0.0.1" ∨ m.info.hostName = "localhost"))
    (h2 : setSSHPort m = Except.ok m1)
    (h3 : resolveHostKeyCallback st env m1.info.hostName m1.info.port = Except.error e) :
    runA st env m =
      ({ m1 with
          connection := false,
          runLength := env.elapsed,
          connectionErrors := ["failed host key check: " ++ keyErrMsg e] },
        0) := by
  simp only [runA, if_neg h1, h2, h3]

theorem runA_connErr (st : State) (env : Env) (m m1 : Machine)
    (cb : HostKeyCallback) (e : ConnError)
    (h1 : ¬(m.info.hostName = "127.0.0.1" ∨ m.info.hostName = "localhost"))
    (h2 : setSSHPort m = Except.ok m1)
    (h3 : resolveHostKeyCallback st env m1.info.hostName m1.info.port = Except.ok cb)
    (h4 : (connect (st.connTimeout * second) st.retry st.retryWait env).result =
      Except.error e) :
    runA st env m =
      ({ m1 with
          connection := false,
          runLength := env.elapsed,
          connectionErrors := ["failed client connection: " ++ connErrMsg e] },
        (connect (st.connTimeout * second) st.retry st.retryWait env).attempts) := by
  simp only [runA, if_neg h1, h2, h3, h4]

theorem runA_success (st : State) (env : Env) (m m1 : Machine) (cb : HostKeyCallback)
    (h1 : ¬(m.info.hostName = "127.0.0.1" ∨ m.info.hostName = "localhost"))
    (h2 : setSSHPort m = Except.ok m1)
    (h3 : resolveHostKeyCallback st env m1.info.hostName m1.info.port = Except.ok cb)
    (h4 : (connect (st.connTimeout * second) st.retry st.retryWait env).result =
      Except.ok ()) :
    runA st env m =
      ({ m1 with
          connection := true,
          runLength := env.elapsed,
          streamData := executeCommands env 0 st.commands },
        (connect (st.connTimeout * second) st.retry st.retryWait env).attempts) := by
  simp only [runA, if_neg h1, h2, h3, h4]

/-- Folding appends of single results equals mapping (the aggregation loop
of `main` builds its slice one append per goroutine). -/
theorem foldl_append_singleton_eq_map {α β : Type} (f : α → β) (l : List α)
    (init : List β) :
    l.foldl (fun acc s => acc ++ [f s]) init = init ++ l.map f := by
  induction l generalizing init with
  | nil => simp
  | cons x xs ih => simp [List.foldl, ih]

/-- The aggregated machine data is the per-host results in completion order. -/
theorem fleetMachineData_eq_map (st : State) (envs : SSHInfo → Env)
    (l : List SSHInfo) :
    fleetMachineData st envs l = l.map (hostResult st envs) := by
  unfold fleetMachineData
  rw [foldl_append_singleton_eq_map]
  simp

/- ### The claims -/

/-- C1: for every inventory of N hosts, whatever order the per-host
goroutines finish in (any permutation of the inventory), the report's
machine-data collection has exactly N entries and is, as a multiset,
exactly one `Run` result per input host — none dropped, none duplicated,
however many hosts fail to connect. -/
theorem fleet_one_result_per_host (st : State) (envs : SSHInfo → Env)
    (inventory completionOrder : List SSHInfo)
    (hperm : completionOrder.Perm inventory) :
    (fleetMachineData st envs completionOrder).length = inventory.length ∧
    (fleetMachineData st envs completionOrder).Perm
      (inventory.map (hostResult st envs)) := by
  rw [fleetMachineData_eq_map]
  exact ⟨by rw [List.length_map, hperm.length_eq], hperm.map _⟩

/-- Witness for C1 at a two-host inventory completing in swapped order. -/
theorem fleet_one_result_per_host_witness :
    (fleetMachineData stPlain (fun _ => envAllFail)
        [⟨"b.example.com", "u", "", none⟩, ⟨"a.example.com", "u", "", none⟩]).length =
      ([⟨"a.example.com", "u", "", none⟩, ⟨"b.example.com", "u", "", none⟩] :
        List SSHInfo).length ∧
    (fleetMachineData stPlain (fun _ => envAllFail)
        [⟨"b.example.com", "u", "", none⟩, ⟨"a.example.com", "u", "", none⟩]).Perm
      (([⟨"a.example.com", "u", "", none⟩, ⟨"b.example.com", "u", "", none⟩] :
        List SSHInfo).map (hostResult stPlain (fun _ => envAllFail))) :=
  fleet_one_result_per_host stPlain (fun _ => envAllFail)
    [⟨"a.example.com", "u", "", none⟩, ⟨"b.example.com", "u", "", none⟩]
    [⟨"b.example.com", "u", "", none⟩, ⟨"a.example.com", "u", "", none⟩]
    (List.Perm.swap (⟨"a.example.com", "u", "", none⟩ : SSHInfo)
      (⟨"b.example.com", "u", "", none⟩ : SSHInfo) [])

/-- C2: a host result of `Machine.Run` with `Connection = false` has empty
`StreamData` and non-empty `ConnectionErrors`; with `Connection = true` its
`StreamData` has exactly one entry per input command, carrying the command
names in input order. -/
theorem run_connection_streamdata (st : State) (env : Env) (s : SSHInfo) :
    ((run st env (newMachine s)).connection = false →
      (run st env (newMachine s)).streamData = [] ∧
      (run st env (newMachine s)).connectionErrors ≠ []) ∧
    ((run st env (newMachine s)).connection = true →
      (run st env (newMachine s)).streamData.length = st.commands.length ∧
      (run st env (newMachine s)).streamData.map Stream.name =
        st.commands.map Command.name) := by
  by_cases h1 : (newMachine s).info.hostName = "127.0.0.1" ∨
      (newMachine s).info.hostName = "localhost"
  · rw [run, runA_loopback st env _ h1]
    exact ⟨fun _ => ⟨rfl, by simp⟩, fun h => by simp at h⟩
  · cases h2 : setSSHPort (newMachine s) with
    | error e =>
      rw [run, runA_portErr st env _ e h1 h2]
      exact ⟨fun _ => ⟨rfl, by simp⟩, fun h => by simp at h⟩
    | ok m1 =>
      obtain ⟨-, -, herr, hstream, -⟩ := setSSHPort_ok_fields _ _ h2
      cases h3 : resolveHostKeyCallback st env m1.info.hostName m1.info.port with
      | error e =>
        rw [run, runA_keyErr st env _ m1 e h1 h2 h3]
        exact ⟨fun _ => ⟨hstream, by simp⟩, fun h => by simp at h⟩
      | ok cb =>
        cases h4 : (connect (st.connTimeout * second) st.retry st.retryWait env).result with
        | error e =>
          rw [run, runA_connErr st env _ m1 cb e h1 h2 h3 h4]
          exact ⟨fun _ => ⟨hstream, by simp⟩, fun h => by simp at h⟩
        | ok u =>
          rw [run, runA_success st env _ m1 cb h1 h2 h3 (by rw [h4])]
          refine ⟨fun h => by simp at h, fun _ => ?_⟩
          exact ⟨executeCommands_length env 0 st.commands,
            executeCommands_names env 0 st.commands⟩

/-- Witness for C2 at a rejected loopback host (the failure side) whose
connection is false. -/
theorem run_connection_streamdata_witness :
    (run stPlain envAllFail (newMachine ⟨"localhost", "u", "", none⟩)).streamData = [] ∧
    (run stPlain envAllFail (newMachine ⟨"localhost", "u", "", none⟩)).connectionErrors ≠ [] :=
  (run_connection_streamdata stPlain envAllFail ⟨"localhost", "u", "", none⟩).1 rfl

/-- C3: the executor records, per command: a reported exit status for normal
completion (0 on a nil error, the remote status on an `ExitError`); the -1
sentinel with an "Exit code missing" description on abnormal termination
without a status; the -1 sentinel, a recorded error and empty stdout/stderr
when the session cannot even be created; and it always records exactly one
result per command — failures are data, never an error to the caller, and
the remaining commands still run. -/
theorem executor_outcomes (c : Command) :
    (∀ out err, execOne (SessionOutcome.success out err) c =
      { name := c.name, stdout := out.trim, stderr := err.trim, exitCode := 0,
        streamErrors := [] }) ∧
    (∀ out err status msg,
      (execOne (SessionOutcome.exitError out err status msg) c).exitCode = status ∧
      (execOne (SessionOutcome.exitError out err status msg) c).streamErrors ≠ []) ∧
    (∀ out err msg,
      (execOne (SessionOutcome.exitMissing out err msg) c).exitCode = -1 ∧
      (execOne (SessionOutcome.exitMissing out err msg) c).streamErrors =
        ["Exit code missing: " ++ msg]) ∧
    (∀ ty msg,
      (execOne (SessionOutcome.noSession ty msg) c).exitCode = -1 ∧
      (execOne (SessionOutcome.noSession ty msg) c).stdout = "" ∧
      (execOne (SessionOutcome.noSession ty msg) c).stderr = "" ∧
      (execOne (SessionOutcome.noSession ty msg) c).streamErrors ≠ []) ∧
    (∀ env i cs, (executeCommands env i cs).length = cs.length) := by
  refine ⟨fun out err => rfl,
    fun out err status msg => ⟨rfl, by simp [execOne]⟩,
    fun out err msg => ⟨rfl, rfl⟩,
    fun ty msg => ⟨rfl, rfl, rfl, by simp [execOne]⟩,
    executeCommands_length⟩

/-- C7: a loopback host (`127.0.0.1` or `localhost`) is rejected up front:
`Run` returns `Connection = false` with the specific "not supported" error
and performs zero dial attempts. -/
theorem run_loopback_rejected (st : State) (env : Env) (s : SSHInfo)
    (h : s.hostName = "127.0.0.1" ∨ s.hostName = "localhost") :
    (run st env (newMachine s)).connection = false ∧
    (run st env (newMachine s)).connectionErrors =
      ["[" ++ s.hostName ++ "] is not supported. Consider creating a feature proposal"] ∧
    (runA st env (newMachine s)).2 = 0 := by
  have h' : (newMachine s).info.hostName = "127.0.0.1" ∨
      (newMachine s).info.hostName = "localhost" := h
  rw [run, runA_loopback st env _ h']
  exact ⟨rfl, rfl, rfl⟩

/-- Witness for C7 at the host `localhost`. -/
theorem run_loopback_rejected_witness :
    (run stPlain envAllOk (newMachine ⟨"localhost", "u", "", none⟩)).connection = false ∧
    (run stPlain envAllOk (newMachine ⟨"localhost", "u", "", none⟩)).connectionErrors =
      ["[" ++ "localhost" ++ "] is not supported. Consider creating a feature proposal"] ∧
    (runA stPlain envAllOk (newMachine ⟨"localhost", "u", "", none⟩)).2 = 0 :=
  run_loopback_rejected stPlain envAllOk ⟨"localhost", "u", "", none⟩ (Or.inr rfl)

/-- C9: on every failure path of `Machine.Run` the returned host result
carries exactly one connection-error string — never zero, never more. -/
theorem run_failure_single_error (st : State) (env : Env) (s : SSHInfo)
    (h : (run st env (newMachine s)).connection = false) :
    (run st env (newMachine s)).connectionErrors.length = 1 := by
  by_cases h1 : (newMachine s).info.hostName = "127.0.0.1" ∨
      (newMachine s).info.hostName = "localhost"
  · rw [run, runA_loopback st env _ h1]
    rfl
  · cases h2 : setSSHPort (newMachine s) with
    | error e =>
      rw [run, runA_portErr st env _ e h1 h2]
      rfl
    | ok m1 =>
      cases h3 : resolveHostKeyCallback st env m1.info.hostName m1.info.port with
      | error e =>
        rw [run, runA_keyErr st env _ m1 e h1 h2 h3]
        rfl
      | ok cb =>
        cases h4 : (connect (st.connTimeout * second) st.retry st.retryWait env).result with
        | error e =>
          rw [run, runA_connErr st env _ m1 cb e h1 h2 h3 h4]
          rfl
        | ok u =>
          rw [run, runA_success st env _ m1 cb h1 h2 h3 (by rw [h4])] at h
          simp at h

/-- Witness for C9 at a rejected loopback host. -/
theorem run_failure_single_error_witness :
    (run stPlain envAllFail (newMachine ⟨"127.0.0.1", "u", "", none⟩)).connectionErrors.length = 1 :=
  run_failure_single_error stPlain envAllFail ⟨"127.0.0.1", "u", "", none⟩ rfl

/- ### Connect: retry counting and the overall deadline (C4, C5) -/

/-- With a non-zero timeout, `connect` is the deadline-checked select over
the dialing goroutine's outcome. -/
theorem connect_nonzero (timeout retry wait : Nat) (env : Env) (h : timeout ≠ 0) :
    connect timeout retry wait env =
      (if (dialLoop env wait retry 0).2.1 ≤
          timeout + retry * wait * second + retry * timeout + second then
        (match (dialLoop env wait retry 0).2.2 with
          | none => { result := Except.ok (), attempts := (dialLoop env wait retry 0).1 }
          | some e =>
            { result := Except.error (ConnError.lastDial e),
              attempts := (dialLoop env wait retry 0).1 })
      else
        { result := Except.error (ConnError.deadline retry wait),
          attempts := (dialLoop env wait retry 0).1 }) := by
  unfold connect
  rw [if_neg h]

/-- C4: with a non-zero timeout, `retry = 2` and dials that always fail
instantly, `connect` makes exactly 3 dial attempts (1 initial + 2 retries),
sleeps `wait` seconds between consecutive attempts (the goroutine spends
exactly `2 × wait` seconds), and returns the last dial error.  With a zero
timeout it makes exactly one attempt, no retry and no deadline enforcement,
returning that attempt's outcome.  A successful first dial short-circuits:
one attempt, success, for any retry budget. -/
theorem connect_attempt_counts (timeout retry wait : Nat) (env : Env)
    (htime : ∀ k, env.dialTime k = 0) :
    (timeout ≠ 0 → (∀ k, (env.dialResult k).isSome = true) →
      ((connect timeout 2 wait env).attempts = 3 ∧
       (∀ e, env.dialResult 2 = some e →
         (connect timeout 2 wait env).result = Except.error (ConnError.lastDial e)) ∧
       (dialLoop env wait 2 0).2.1 = 2 * (wait * second))) ∧
    ((connect 0 retry wait env).attempts = 1 ∧
      (env.dialResult 0 = none → (connect 0 retry wait env).result = Except.ok ()) ∧
      (∀ e, env.dialResult 0 = some e →
        (connect 0 retry wait env).result = Except.error (ConnError.wrapDial e))) ∧
    (env.dialResult 0 = none →
      (connect timeout retry wait env).attempts = 1 ∧
      (connect timeout retry wait env).result = Except.ok ()) := by
  refine ⟨fun hne hfail => ?_, ⟨?_, fun h0 => ?_, fun e h0 => ?_⟩, fun h0 => ?_⟩
  · obtain ⟨e0, h0⟩ := Option.isSome_iff_exists.mp (hfail 0)
    obtain ⟨e1, h1⟩ := Option.isSome_iff_exists.mp (hfail 1)
    obtain ⟨e2, h2⟩ := Option.isSome_iff_exists.mp (hfail 2)
    have hdl : dialLoop env wait 2 0 = (3, wait * second + wait * second, some e2) := by
      simp [dialLoop, h0, h1, h2, htime]
    have hle : wait * second + wait * second ≤
        timeout + 2 * wait * second + 2 * timeout + second := by
      simp only [second]
      omega
    have hc : connect timeout 2 wait env =
        { result := Except.error (ConnError.lastDial e2), attempts := 3 } := by
      rw [connect_nonzero timeout 2 wait env hne, hdl]
      simp [hle]
    refine ⟨by rw [hc], fun e he => ?_, by rw [hdl]; rw [two_mul]⟩
    rw [h2] at he
    injection he with he
    subst he
    rw [hc]
  · cases hr : env.dialResult 0 <;> simp [connect, hr]
  · simp [connect, h0]
  · simp [connect, h0]
  · by_cases hne : timeout = 0
    · subst hne
      simp [connect, h0]
    · have hdl : dialLoop env wait retry 0 = (1, env.dialTime 0, none) := by
        simp [dialLoop, h0]
      rw [connect_nonzero timeout retry wait env hne, hdl]
      simp [htime 0]

/-- Witness for C4: three failing attempts under a 5ns timeout with 1s wait,
and the single wrapped attempt under a zero timeout. -/
theorem connect_attempt_counts_witness :
    (connect 5 2 1 envAllFail).attempts = 3 ∧
    (connect 5 2 1 envAllFail).result =
      Except.error (ConnError.lastDial "connection refused") ∧
    (dialLoop envAllFail 1 2 0).2.1 = 2 * (1 * second) ∧
    (connect 0 4 1 envAllFail).attempts = 1 ∧
    (connect 0 4 1 envAllFail).result =
      Except.error (ConnError.wrapDial "connection refused") := by
  have h := connect_attempt_counts 5 4 1 envAllFail (fun k => rfl)
  have h1 := h.1 (by decide) (fun k => rfl)
  exact ⟨h1.1, h1.2.1 "connection refused" rfl, h1.2.2, h.2.1.1,
    h.2.1.2.2 "connection refused" rfl⟩

/-- C5: with a non-zero timeout, `connect` bounds the retry loop by the
deadline `timeout + retry × wait seconds + retry × timeout` plus the
one-second safety margin; when the loop is still running past that window
the result is the deadline-exceeded error, which is a different error value
from every dial error. -/
theorem connect_deadline_exceeded (timeout retry wait : Nat) (env : Env)
    (h0 : timeout ≠ 0)
    (hlate : timeout + retry * wait * second + retry * timeout + second <
      (dialLoop env wait retry 0).2.1) :
    (connect timeout retry wait env).result =
      Except.error (ConnError.deadline retry wait) ∧
    (∀ r w e, ConnError.deadline r w ≠ ConnError.lastDial e) ∧
    (∀ r w e, ConnError.deadline r w ≠ ConnError.wrapDial e) := by
  refine ⟨?_, fun r w e h => ConnError.noConfusion h,
    fun r w e h => ConnError.noConfusion h⟩
  rw [connect_nonzero timeout retry wait env h0]
  rw [if_neg (Nat.not_le.mpr hlate)]

/-- Witness for C5: a dial that takes two seconds against a 1ns timeout
with no retries exceeds the deadline window. -/
theorem connect_deadline_exceeded_witness :
    (connect 1 0 0 envSlowDial).result = Except.error (ConnError.deadline 0 0) ∧
    (∀ r w e, ConnError.deadline r w ≠ ConnError.lastDial e) ∧
    (∀ r w e, ConnError.deadline r w ≠ ConnError.wrapDial e) :=
  connect_deadline_exceeded 1 0 0 envSlowDial (by decide) (by decide)

/- ### Ports (C6) and host keys (C8, C10) -/

/-- Once port validation succeeds, every later path of `Run` returns the
validated machine's `SSHInfo` untouched. -/
theorem run_info_after_portOk (st : State) (env : Env) (m m1 : Machine)
    (h1 : ¬(m.info.hostName = "127.0.0.1" ∨ m.info.hostName = "localhost"))
    (h2 : setSSHPort m = Except.ok m1) :
    (run st env m).info = m1.info := by
  cases h3 : resolveHostKeyCallback st env m1.info.hostName m1.info.port with
  | error e => rw [run, runA_keyErr st env m m1 e h1 h2 h3]
  | ok cb =>
    cases h4 : (connect (st.connTimeout * second) st.retry st.retryWait env).result with
    | error e => rw [run, runA_connErr st env m m1 cb e h1 h2 h3 h4]
    | ok u => rw [run, runA_success st env m m1 cb h1 h2 h3 (by rw [h4])]

/-- When every successful parse of the port is out of range (or nothing
parses at all), `atoi` errors out or returns an out-of-range value. -/
theorem atoi_invalid (s : String)
    (hbad : ∀ i : Int, atoiCore s = some i → i < 1 ∨ i > 65535) :
    (∃ msg, atoi s = Except.error msg) ∨
    (∃ i, atoi s = Except.ok i ∧ (i < 1 ∨ i > 65535)) := by
  unfold atoi
  cases hac : atoiCore s with
  | none => exact Or.inl ⟨_, rfl⟩
  | some i =>
    by_cases hr : i < -(2 ^ 63) ∨ i > 2 ^ 63 - 1
    · exact Or.inl ⟨_, if_pos hr⟩
    · exact Or.inr ⟨i, if_neg hr, hbad i hac⟩

/-- C6 counterexample: a non-loopback host with port string `"abc"` is
emitted with `ssh_port` still `"abc"` — not a valid positive integer (the
program's own parser rejects it) — refuting "in every emitted host result
the port is a valid positive integer". -/
theorem port_validity_counterexample :
    (run stPlain envAllFail (newMachine ⟨"h", "u", "abc", none⟩)).info.port = "abc" ∧
    atoiCore "abc" = none ∧
    (run stPlain envAllFail (newMachine ⟨"h", "u", "abc", none⟩)).connection = false :=
  ⟨rfl, rfl, rfl⟩

/-- C6 (amended): for every non-loopback host, an empty port string
defaults to `"22"` in the output; a port string that does not parse as an
integer in [1, 65535] yields a port-validation error, `connected = false`,
zero dial attempts, and the invalid string left unchanged in the emitted
result; and every host result with `connected = true` carries a port that
is the decimal rendering of an integer in [1, 65535].  (Loopback hosts
return earlier with their port untouched, and failed-validation results are
still emitted carrying the invalid string, which is what forces the
amendment.) -/
theorem port_handling_amended (st : State) (env : Env) (s : SSHInfo)
    (hloop : ¬(s.hostName = "127.0.0.1" ∨ s.hostName = "localhost")) :
    (s.port = "" → (run st env (newMachine s)).info.port = "22") ∧
    (s.port ≠ "" → (∀ i : Int, atoiCore s.port = some i → i < 1 ∨ i > 65535) →
      (run st env (newMachine s)).connection = false ∧
      (runA st env (newMachine s)).2 = 0 ∧
      (run st env (newMachine s)).info.port = s.port ∧
      (∃ msg, (run st env (newMachine s)).connectionErrors =
        ["failed port validation: " ++ msg])) ∧
    ((run st env (newMachine s)).connection = true →
      ∃ i : Int, 1 ≤ i ∧ i ≤ 65535 ∧ (run st env (newMachine s)).info.port = toString i) := by
  have h1 : ¬((newMachine s).info.hostName = "127.0.0.1" ∨
      (newMachine s).info.hostName = "localhost") := hloop
  have hp : (newMachine s).info.port = s.port := rfl
  refine ⟨fun hempty => ?_, fun hne hbad => ?_, ?_⟩
  · have h2 : setSSHPort (newMachine s) =
        Except.ok { newMachine s with
          info := { (newMachine s).info with port := "22" } } := by
      unfold setSSHPort
      rw [if_pos (hp.trans hempty)]
    rw [run_info_after_portOk st env _ _ h1 h2]
  · have h2 : ∃ e, setSSHPort (newMachine s) = Except.error e := by
      rcases atoi_invalid s.port hbad with ⟨msg, ha⟩ | ⟨i, ha, hout⟩
      · refine ⟨PortErr.atoiErr msg, ?_⟩
        unfold setSSHPort
        rw [hp, if_neg hne, ha]
      · refine ⟨PortErr.range s.port, ?_⟩
        unfold setSSHPort
        rw [hp, if_neg hne, ha]
        exact if_pos hout
    obtain ⟨e, h2⟩ := h2
    rw [run, runA_portErr st env _ e h1 h2]
    exact ⟨rfl, rfl, rfl, ⟨portErrMsg e, rfl⟩⟩
  · cases h2 : setSSHPort (newMachine s) with
    | error e =>
      intro hconn
      rw [run, runA_portErr st env _ e h1 h2] at hconn
      simp at hconn
    | ok m1 =>
      intro _
      rw [run_info_after_portOk st env _ _ h1 h2]
      rcases setSSHPort_ok_port _ _ h2 with ⟨-, h22⟩ | ⟨i, hlo, hhi, hport⟩
      · exact ⟨22, by omega, by omega, by rw [h22]; rfl⟩
      · exact ⟨i, hlo, hhi, hport⟩

/-- Witness for the amended C6 at the non-loopback host `h` with the
unparsable port `"abc"`. -/
theorem port_handling_amended_witness :
    (run stPlain envAllFail (newMachine ⟨"h", "u", "abc", none⟩)).connection = false ∧
    (runA stPlain envAllFail (newMachine ⟨"h", "u", "abc", none⟩)).2 = 0 ∧
    (run stPlain envAllFail (newMachine ⟨"h", "u", "abc", none⟩)).info.port = "abc" ∧
    (∃ msg, (run stPlain envAllFail (newMachine ⟨"h", "u", "abc", none⟩)).connectionErrors =
      ["failed port validation: " ++ msg]) :=
  (port_handling_amended stPlain envAllFail ⟨"h", "u", "abc", none⟩ (by decide)).2.1
    (by decide)
    (fun i hi => absurd ((by decide : atoiCore "abc" = none) ▸ hi) (by simp))

/-- C8: with host-key verification enabled, `Run` resolves the trusted key
for the validated hostname and port from the known-hosts store before any
dial; a lookup failure yields `connected = false`, zero dial attempts and
the wrapped host-key error.  A successful lookup pins exactly that key in
the callback handed to the connection.  With verification disabled the
insecure callback is used, which accepts every presented server key. -/
theorem run_hostkey_checking (st : State) (env : Env) (s : SSHInfo) :
    (∀ m1 e, ¬(s.hostName = "127.0.0.1" ∨ s.hostName = "localhost") →
      setSSHPort (newMachine s) = Except.ok m1 →
      st.hostKeyCheck = true →
      checkHostKey env m1.info.hostName m1.info.port = Except.error e →
      (run st env (newMachine s)).connection = false ∧
      (runA st env (newMachine s)).2 = 0 ∧
      (run st env (newMachine s)).connectionErrors =
        ["failed host key check: " ++ keyErrMsg e]) ∧
    (∀ host port k, st.hostKeyCheck = true →
      checkHostKey env host port = Except.ok k →
      resolveHostKeyCallback st env host port =
        Except.ok (HostKeyCallback.fixed k)) ∧
    (st.hostKeyCheck = false →
      (∀ host port, resolveHostKeyCallback st env host port =
        Except.ok HostKeyCallback.insecure) ∧
      (∀ k, HostKeyCallback.insecure.accepts k = true)) := by
  refine ⟨fun m1 e h1 h2 hck hkey => ?_, fun host port k hck hkey => ?_, fun hck => ?_⟩
  · have h3 : resolveHostKeyCallback st env m1.info.hostName m1.info.port =
        Except.error e := by
      unfold resolveHostKeyCallback
      simp [hck, hkey]
    have h1' : ¬((newMachine s).info.hostName = "127.0.0.1" ∨
        (newMachine s).info.hostName = "localhost") := h1
    rw [run, runA_keyErr st env _ m1 e h1' h2 h3]
    exact ⟨rfl, rfl, rfl⟩
  · unfold resolveHostKeyCallback
    simp [hck, hkey]
  · refine ⟨fun host port => ?_, fun k => rfl⟩
    unfold resolveHostKeyCallback
    simp [hck]

/-- Witness for C8: with checking enabled and an empty known-hosts file,
the host `h` fails the key lookup before any dial. -/
theorem run_hostkey_checking_witness :
    (run stCheck envAllFail (newMachine ⟨"h", "u", "", none⟩)).connection = false ∧
    (runA stCheck envAllFail (newMachine ⟨"h", "u", "", none⟩)).2 = 0 ∧
    (run stCheck envAllFail (newMachine ⟨"h", "u", "", none⟩)).connectionErrors =
      ["failed host key check: " ++ keyErrMsg (KeyErr.noHostKey "h" "22")] :=
  (run_hostkey_checking stCheck envAllFail ⟨"h", "u", "", none⟩).1
    (newMachine ⟨"h", "u", "22", none⟩) (KeyErr.noHostKey "h" "22")
    (by decide) rfl rfl rfl

/-- `find?` on a concatenation whose left part has no match returns the
first matching element of what follows. -/
theorem find?_append_first {α : Type} (p : α → Bool) (pre post : List α) (x : α)
    (h1 : ∀ l ∈ pre, p l = false) (h2 : p x = true) :
    (pre ++ x :: post).find? p = some x := by
  induction pre with
  | nil => simp [List.find?, h2]
  | cons a as ih =>
    have ha := h1 a (by simp)
    simp only [List.cons_append, List.find?, ha]
    exact ih (fun l hl => h1 l (by simp [hl]))

/-- C10: `checkHostKey` matches by substring containment — it returns the
parsed key of the first known-hosts line having exactly three fields whose
first field contains the target (`host` when the port is `"22"`, otherwise
`"[host]:port"`) as a substring.  Consequently a hostname that is a
substring of a different trusted host's entry resolves to that other
host's key (exhibited in the witness). -/
theorem checkHostKey_first_substring_match (env : Env)
    (preLines postLines : List String) (line host port k : String)
    (hkh : env.knownHosts = Except.ok (preLines ++ line :: postLines))
    (hpre : ∀ l ∈ preLines,
      ¬((fields l).length = 3 ∧
        containsStr ((fields l).headD "") (knownHostsTarget host port) = true))
    (hline : (fields line).length = 3 ∧
      containsStr ((fields line).headD "") (knownHostsTarget host port) = true)
    (hparse : env.parseKey line = Except.ok k) :
    checkHostKey env host port = Except.ok k := by
  have hpf : ∀ l ∈ preLines, lineMatches (knownHostsTarget host port) l = false := by
    intro l hl
    cases hb : lineMatches (knownHostsTarget host port) l
    · rfl
    · simp only [lineMatches, Bool.and_eq_true, beq_iff_eq] at hb
      exact absurd hb (hpre l hl)
  have hlf : lineMatches (knownHostsTarget host port) line = true := by
    simp only [lineMatches, Bool.and_eq_true, beq_iff_eq]
    exact ⟨hline.1, hline.2⟩
  unfold checkHostKey
  rw [hkh]
  simp only [find?_append_first (fun l => lineMatches (knownHostsTarget host port) l)
    preLines postLines line hpf hlf, hparse]

/-- Witness for C10: looking up host `host` (port 22) against a known-hosts
file that only trusts `otherhost.example.com` resolves — via substring
containment — to the other host's key. -/
theorem checkHostKey_first_substring_match_witness :
    ((fields "otherhost.example.com ssh-ed25519 KEYBLOB").length = 3 ∧
      containsStr ((fields "otherhost.example.com ssh-ed25519 KEYBLOB").headD "")
        (knownHostsTarget "host" "22") = true) ∧
    checkHostKey envKnownHosts "host" "22" = Except.ok "OTHERHOSTKEY" :=
  ⟨by decide,
    checkHostKey_first_substring_match envKnownHosts [] []
      "otherhost.example.com ssh-ed25519 KEYBLOB" "host" "22" "OTHERHOSTKEY"
      rfl (by simp) (by decide) rfl⟩

end Boomerang
